import Mathlib

/-!
Verification of the pico-weather core: the weather-condition classifier and
the refresh/fetch scheduler of the main polling loop.

The definitions below are a shallow embedding of the Python source:
`src/micropython/main.py` (elapsed-time variant) and `src/code.py`
(modulo-time variant).  Dictionaries with possibly-missing keys become
`Option` fields, Python exceptions become `Option`-valued results (`none`
is an uncaught exception), monotonic tick values become `Int`, and the
temperature payload — merely copied through by the code — is carried as `Int`.
-/

namespace PicoWeather

/-- One entry of `item["weather"]`: the `main` label, the numeric condition
`id`, and the (possibly absent) `icon` string. -/
structure WeatherEntry where
  main : String
  id : Nat
  icon : Option String
  deriving Repr, DecidableEq

/-- The raw hourly forecast item handed to the classification code:
`item["weather"]` may be absent (`none`) or an empty list, and
`item["feels_like"]` is the temperature payload. -/
structure RawItem where
  weather : Option (List WeatherEntry)
  feels_like : Int
  deriving Repr, DecidableEq

/-- The `weather_data` dictionary produced by the classification code:
icon key, cast label, temperature. -/
structure DisplayData where
  icon : String
  cast : String
  temp : Int
  deriving Repr, DecidableEq

/-- Python's `str.lower()` on the strings this program builds (ASCII). -/
def pyLower (s : String) : String :=
  String.mk (s.data.map Char.toLower)

/-- Python's `icon.split(".")[0]`: the characters before the first `'.'`. -/
def firstSegment (s : String) : List Char :=
  s.data.takeWhile (fun c => c ≠ '.')

/-- The id-based label overrides, in source order:
`if wid == 771: cast = "Windy"`, `if wid == 871: cast = "Tornado"`,
`if 699 < wid < 770: cast = "Foggy"`. -/
def applyIdOverrides (cast : String) (wid : Nat) : String :=
  let c1 := if wid = 771 then "Windy" else cast
  let c2 := if wid = 871 then "Tornado" else c1
  if 699 < wid ∧ wid < 770 then "Foggy" else c2

/-- The `if weather_data["cast"] == "Clouds"` branch: returns the new
(cast, icon) pair. -/
def applyClouds (cast icon : String) (wid : Nat) : String × String :=
  if cast = "Clouds" then
    if wid < 804 then ("Partly cloudy", "partlycloudy")
    else ("Cloudy", "cloudy")
  else (cast, icon)

/-- The `if 602 < wid < 620` sleet branch: returns the new (cast, icon). -/
def applySleet (cast icon : String) (wid : Nat) : String × String :=
  if 602 < wid ∧ wid < 620 then ("Sleet", "sleet") else (cast, icon)

/-- The `if weather_data["cast"] == "Drizzle"` branch: only the cast label
is rewritten; the icon key set earlier is left untouched. -/
def applyDrizzle (cast : String) : String :=
  if cast = "Drizzle" then "lightrain" else cast

/-- The classification pipeline up to (but excluding) the Clear day/night
branch: id overrides, `icon = cast.lower()`, Clouds, Sleet, Drizzle,
in source order.  Returns (cast, icon). -/
def castAndIcon (main : String) (wid : Nat) : String × String :=
  let cast := applyIdOverrides main wid
  let p := applyClouds cast (pyLower cast) wid
  let q := applySleet p.1 p.2 wid
  (applyDrizzle q.1, q.2)

/-- The full classification block of the main loop, from the
`"weather" in item` test through `weather_data["temp"] = item["feels_like"]`.
`none` models an uncaught Python exception: the Clear branch reads
`item["weather"][0]["icon"]` (KeyError when absent) and then
`parts[0][-1]` (IndexError when the first dot-segment is empty). -/
def classify (item : RawItem) : Option DisplayData :=
  match item.weather with
  | some (w :: _) =>
    let p := castAndIcon w.main w.id
    if p.1 = "Clear" then
      match w.icon with
      | none => none
      | some ic =>
        match (firstSegment ic).getLast? with
        | none => none
        | some d =>
          if d = 'n' then some ⟨p.2 ++ "night", p.1 ++ " night", item.feels_like⟩
          else some ⟨p.2 ++ "day", p.1 ++ " day", item.feels_like⟩
    else some ⟨p.2, p.1, item.feels_like⟩
  | _ =>
    let p := castAndIcon "None" 0
    if p.1 = "Clear" then none
    else some ⟨p.2, p.1, item.feels_like⟩

/-- The `iconset` table built by `setup_icons`: icon-key string to
user-defined character code.  Keys not set up map to `none` (a dictionary
KeyError on lookup). -/
def iconset : String → Option Nat := fun k =>
  if k = "clearday" then some 0
  else if k = "rain" then some 1
  else if k = "lightrain" then some 2
  else if k = "snow" then some 3
  else if k = "sleet" then some 4
  else if k = "wind" then some 5
  else if k = "fog" then some 6
  else if k = "cloudy" then some 7
  else if k = "partlycloudy" then some 8
  else if k = "thunderstorm" then some 9
  else if k = "tornado" then some 10
  else if k = "clearnight" then some 11
  else if k = "none" then some 12
  else none

/-- Python `try: icon = iconset[key] except: icon = iconset["none"]` in
`display_weather`.  The residual `none` is the (dead) KeyError of the
second lookup. -/
def lookup_icon (k : String) : Option Nat :=
  match iconset k with
  | some v => some v
  | none => iconset "none"

/-- Python's `s[0:1].upper() + s[1:]` on the cast label. -/
def capitalizeFirst (s : String) : String :=
  match s.data with
  | [] => ""
  | c :: rest => String.mk (Char.toUpper c :: rest)

/-- The scroll string built by `display_weather`:
`"    " + cast[0:1].upper() + cast[1:] + "  " + "Out: {:.1f}" + "\x7F" + "c"`.
Temperatures are modelled as integers, so the numeric part is `toString`. -/
def mkScroll (dd : DisplayData) : String :=
  "    " ++ capitalizeFirst dd.cast ++ "  " ++ "Out: " ++ toString dd.temp ++ "\x7F" ++ "c"

/-- What one call of `display_weather` does. -/
inductive DWResult where
  | nothing (saved : Option DisplayData)
  | drawn (scroll : String) (icon_char : Nat) (saved : Option DisplayData)
  deriving Repr, DecidableEq

/-- Function `display_weather(display, display_data)` as a pure function of the
passed data and the module-global `saved_data`.  A falsy `display_data`
(Python `None` or the initial empty dict) is `none`.  The outer `Option`
is an uncaught exception (provably never hit). -/
def display_weather (display_data saved_data : Option DisplayData) : Option DWResult :=
  match (match display_data with | some dd => some dd | none => saved_data) with
  | none => some (DWResult.nothing saved_data)
  | some dd =>
    match lookup_icon dd.icon with
    | none => none
    | some v => some (DWResult.drawn (mkScroll dd) v (some dd))

/-! ## The main loop (micropython variant, `src/micropython/main.py`) -/

/-- Constant `FORECAST_PERIOD_US = 15 * 60 * 1000000`. -/
def FORECAST_PERIOD_US : Int := 15 * 60 * 1000000

/-- Constant `DISPLAY_PERIOD_US = 20 * 1000000`. -/
def DISPLAY_PERIOD_US : Int := 20 * 1000000

/-- The daily API-call cap appearing literally in the fetch gate. -/
def CALL_CAP : Nat := 990

/-- The mutable loop state: `open_weather_call_count`, `do_show`,
`last_check[2]` (day of month), `last_forecast`, `last_display`,
`weather_data` (falsy empty dict modelled as `none`), `saved_data`. -/
structure LoopState where
  call_count : Nat
  do_show : Bool
  last_check_day : Nat
  last_forecast : Int
  last_display : Int
  weather_data : Option DisplayData
  saved_data : Option DisplayData
  deriving Repr, DecidableEq

/-- State at `RUNTIME START`: count 0, `do_show = True`, day `d0`,
both timers at tick `t0`, no weather yet. -/
def initState (d0 : Nat) (t0 : Int) : LoopState :=
  ⟨0, true, d0, t0, t0, none, none⟩

/-- The fetch gate of the loop:
`(us_tick - last_forecast > FORECAST_PERIOD_US or do_show) and open_weather_call_count < 990`. -/
def shouldFetch (st : LoopState) (now : Int) : Bool :=
  (decide (now - st.last_forecast > FORECAST_PERIOD_US) || st.do_show)
    && decide (st.call_count < CALL_CAP)

/-- The display gate of the loop:
`(us_tick - last_display > DISPLAY_PERIOD_US) or do_show`. -/
def shouldDisplay (st : LoopState) (now : Int) : Bool :=
  decide (now - st.last_display > DISPLAY_PERIOD_US) || st.do_show

/-- Outcome of `open_weather.request_forecast`: an `"err"` entry (or a
response with no usable `data`/`hourly`), or a usable hourly item. -/
inductive FetchResult where
  | err
  | ok (item : RawItem)
  deriving Repr, DecidableEq

/-- The fetch half of one loop iteration.  On a usable response the item is
classified, `open_weather_call_count` is incremented and then zeroed if the
observed day differs from `last_check[2]`, and `last_forecast`/`do_show`
are updated.  On `"err"` nothing changes.  `none` is an uncaught exception
out of the classification code. -/
def fetch_phase (st : LoopState) (now : Int) (fr : FetchResult) (day : Nat) :
    Option LoopState :=
  if shouldFetch st now then
    match fr with
    | FetchResult.err => some st
    | FetchResult.ok item =>
      match classify item with
      | none => none
      | some wd =>
        let count1 := st.call_count + 1
        let count2 := if day ≠ st.last_check_day then 0 else count1
        some { st with
          weather_data := some wd
          call_count := count2
          last_check_day := day
          last_forecast := now
          do_show := true }
  else some st

/-- The display half of one loop iteration: call `display_weather`, then
`last_display = us_tick; do_show = False`.  `none` is an uncaught
exception out of `display_weather` (provably never hit). -/
def display_phase (st : LoopState) (now : Int) : Option LoopState :=
  if shouldDisplay st now then
    match display_weather st.weather_data st.saved_data with
    | none => none
    | some (DWResult.nothing sv) =>
      some { st with saved_data := sv, last_display := now, do_show := false }
    | some (DWResult.drawn _ _ sv) =>
      some { st with saved_data := sv, last_display := now, do_show := false }
  else some st

/-- One full iteration of the primary loop at tick `now`, with the fetch
outcome `fr` and the calendar day `day` that `localtime()` would report. -/
def step (st : LoopState) (now : Int) (fr : FetchResult) (day : Nat) :
    Option LoopState :=
  match fetch_phase st now fr day with
  | none => none
  | some st1 => display_phase st1 now

/-- Iterated loop: each event is a (tick, fetch outcome, day) triple. -/
def run (st : LoopState) : List (Int × FetchResult × Nat) → Option LoopState
  | [] => some st
  | (now, fr, day) :: rest =>
    match step st now fr day with
    | none => none
    | some st1 => run st1 rest

/-! ## The main loop gate (circuitpython variant, `src/code.py`) -/

/-- Constant `FORECAST_PERIOD_NS = 15 * 60 * 1000000000`. -/
def FORECAST_PERIOD_NS : Nat := 15 * 60 * 1000000000

/-- Constant `DISPLAY_PERIOD_NS = 15 * 1000000000`. -/
def DISPLAY_PERIOD_NS : Nat := 15 * 1000000000

/-- Loop state of the `code.py` variant: it keeps no fetch/display
timestamps, only the counter, the flag, the day and the data. -/
structure CPState where
  call_count : Nat
  do_show : Bool
  last_check_day : Nat
  weather_data : Option DisplayData
  saved_data : Option DisplayData
  deriving Repr, DecidableEq

/-- The `code.py` fetch gate:
`(ns_tick % FORECAST_PERIOD_NS == 0 or do_show) and open_weather_call_count < 990`. -/
def shouldFetchCP (st : CPState) (now : Nat) : Bool :=
  (decide (now % FORECAST_PERIOD_NS = 0) || st.do_show)
    && decide (st.call_count < CALL_CAP)

/-- One full iteration of the `code.py` primary loop at tick `now`. -/
def cpStep (st : CPState) (now : Nat) (fr : FetchResult) (day : Nat) :
    Option CPState :=
  match (if shouldFetchCP st now then
          match fr with
          | FetchResult.err => some st
          | FetchResult.ok item =>
            match classify item with
            | none => none
            | some wd =>
              let count1 := st.call_count + 1
              let count2 := if day ≠ st.last_check_day then 0 else count1
              some { st with
                weather_data := some wd
                call_count := count2
                last_check_day := day
                do_show := true }
        else some st) with
  | none => none
  | some st1 =>
    if decide (now % DISPLAY_PERIOD_NS = 0) || st1.do_show then
      match display_weather st1.weather_data st1.saved_data with
      | none => none
      | some (DWResult.nothing sv) =>
        some { st1 with saved_data := sv, do_show := false }
      | some (DWResult.drawn _ _ sv) =>
        some { st1 with saved_data := sv, do_show := false }
    else some st1

/-! ## Classifier lemmas -/

theorem applyIdOverrides_id (main : String) (wid : Nat)
    (h771 : wid ≠ 771) (h871 : wid ≠ 871) (hfog : ¬(699 < wid ∧ wid < 770)) :
    applyIdOverrides main wid = main := by
  simp [applyIdOverrides, h771, h871, hfog]

theorem applyIdOverrides_foggy (main : String) (wid : Nat)
    (hfog : 699 < wid ∧ wid < 770) :
    applyIdOverrides main wid = "Foggy" := by
  simp [applyIdOverrides, hfog.1, hfog.2]

theorem applyClouds_ne (cast icon : String) (wid : Nat) (h : cast ≠ "Clouds") :
    applyClouds cast icon wid = (cast, icon) := by
  simp [applyClouds, h]

theorem applySleet_pos (cast icon : String) (wid : Nat) (h : 602 < wid ∧ wid < 620) :
    applySleet cast icon wid = ("Sleet", "sleet") := by
  simp [applySleet, h.1, h.2]

theorem applySleet_neg (cast icon : String) (wid : Nat) (h : ¬(602 < wid ∧ wid < 620)) :
    applySleet cast icon wid = (cast, icon) := by
  simp [applySleet, h]

/-- The pipeline when none of the id-keyed overrides fire and the label is
not "Clouds": only the Drizzle rewrite can still touch the label, and the
icon is the lowercased label. -/
theorem castAndIcon_plain (main : String) (wid : Nat)
    (h771 : wid ≠ 771) (h871 : wid ≠ 871) (hfog : ¬(699 < wid ∧ wid < 770))
    (hsleet : ¬(602 < wid ∧ wid < 620)) (hcl : main ≠ "Clouds") :
    castAndIcon main wid = (applyDrizzle main, pyLower main) := by
  simp only [castAndIcon]
  rw [applyIdOverrides_id main wid h771 h871 hfog]
  rw [applyClouds_ne main (pyLower main) wid hcl]
  rw [applySleet_neg main (pyLower main) wid hsleet]

/-- C3 counterexample: for a plain Drizzle item (id 300, no override), the
code rewrites only the cast label to "lightrain" and leaves the icon key at
"drizzle" (the lowercased condition_main), so the claim that both fields
equal "lightrain" is false. -/
theorem C3_cex_drizzle_icon_not_lightrain :
    classify ⟨some [⟨"Drizzle", 300, some "09d"⟩], 7⟩ = some ⟨"drizzle", "lightrain", 7⟩ ∧
    (classify ⟨some [⟨"Drizzle", 300, some "09d"⟩], 7⟩).map DisplayData.icon ≠ some "lightrain" := by
  decide

/-- C3 (amended): for every raw item whose condition_main is "Drizzle" and
whose condition_id triggers no earlier override, the label becomes
"lightrain" but the icon key stays "drizzle". -/
theorem C3_drizzle_label_lightrain_icon_drizzle (wid : Nat) (icon : Option String) (t : Int)
    (h771 : wid ≠ 771) (h871 : wid ≠ 871)
    (hfog : ¬(699 < wid ∧ wid < 770)) (hsleet : ¬(602 < wid ∧ wid < 620)) :
    classify ⟨some [⟨"Drizzle", wid, icon⟩], t⟩ = some ⟨"drizzle", "lightrain", t⟩ := by
  have hcast : castAndIcon "Drizzle" wid = ("lightrain", "drizzle") := by
    rw [castAndIcon_plain "Drizzle" wid h771 h871 hfog hsleet (by decide)]
    decide
  simp [classify, hcast]

/-- C3 witness: the amended statement at the concrete Drizzle item. -/
theorem C3_drizzle_witness :
    classify ⟨some [⟨"Drizzle", 301, some "09n"⟩], 2⟩ = some ⟨"drizzle", "lightrain", 2⟩ :=
  C3_drizzle_label_lightrain_icon_drizzle 301 (some "09n") 2 (by decide) (by decide)
    (by decide) (by decide)

/-- C7 counterexample: at condition_id exactly 700 the code's range check
`699 < wid < 770` fires, so the label is overridden to "Foggy" instead of
keeping the condition_main value ("Haze"), contradicting the claim that 700
is outside the override range. -/
theorem C7_cex_id700_is_foggy :
    classify ⟨some [⟨"Haze", 700, some "50d"⟩], 10⟩ = some ⟨"foggy", "Foggy", 10⟩ ∧
    (classify ⟨some [⟨"Haze", 700, some "50d"⟩], 10⟩).map DisplayData.cast ≠ some "Haze" := by
  decide

/-- C7 (amended): the Foggy override fires for precisely the condition ids
in [700, 769] — `699 < wid < 770` in the source.  Inside the range the
label and icon become "Foggy"/"foggy" regardless of condition_main; for
every id outside the range that triggers no other id override (771, 871,
the sleet range) and whose condition_main hits no label branch
(Clouds/Drizzle/Clear), the label keeps the condition_main value — in
particular ids 699 and 770 are not overridden, while 700 is. -/
theorem C7_foggy_range_exact (main : String) (icon : Option String) (wid : Nat) (t : Int) :
    (700 ≤ wid → wid ≤ 769 →
      classify ⟨some [⟨main, wid, icon⟩], t⟩ = some ⟨"foggy", "Foggy", t⟩) ∧
    (¬(700 ≤ wid ∧ wid ≤ 769) → wid ≠ 771 → wid ≠ 871 → ¬(602 < wid ∧ wid < 620) →
      main ≠ "Clouds" → main ≠ "Drizzle" → main ≠ "Clear" →
      classify ⟨some [⟨main, wid, icon⟩], t⟩ = some ⟨pyLower main, main, t⟩) := by
  constructor
  · intro h1 h2
    have hcast : castAndIcon main wid = ("Foggy", "foggy") := by
      simp only [castAndIcon]
      rw [applyIdOverrides_foggy main wid (by omega)]
      rw [applyClouds_ne "Foggy" (pyLower "Foggy") wid (by decide)]
      rw [applySleet_neg "Foggy" (pyLower "Foggy") wid (by omega)]
      decide
    simp [classify, hcast]
  · intro hout h771 h871 hsleet hcl hdr hcr
    have hfog : ¬(699 < wid ∧ wid < 770) := by omega
    have hcast : castAndIcon main wid = (main, pyLower main) := by
      rw [castAndIcon_plain main wid h771 h871 hfog hsleet hcl]
      simp [applyDrizzle, hdr]
    simp [classify, hcast, hcr]

/-- C7 witness: the override fires at the boundary id 700, and the labels
at 699 and 770 keep the condition_main value ("Haze"). -/
theorem C7_foggy_range_exact_witness :
    classify ⟨some [⟨"Haze", 700, some "50d"⟩], 1⟩ = some ⟨"foggy", "Foggy", 1⟩ ∧
    classify ⟨some [⟨"Haze", 699, some "50d"⟩], 1⟩ = some ⟨pyLower "Haze", "Haze", 1⟩ ∧
    classify ⟨some [⟨"Haze", 770, none⟩], 2⟩ = some ⟨pyLower "Haze", "Haze", 2⟩ :=
  ⟨(C7_foggy_range_exact "Haze" (some "50d") 700 1).1 (by decide) (by decide),
   (C7_foggy_range_exact "Haze" (some "50d") 699 1).2 (by decide) (by decide) (by decide)
     (by decide) (by decide) (by decide) (by decide),
   (C7_foggy_range_exact "Haze" none 770 2).2 (by decide) (by decide) (by decide)
     (by decide) (by decide) (by decide) (by decide)⟩

/-- C8: for every condition_id strictly between 602 and 620, the sleet
branch overrides whatever the earlier branches produced — for any
condition_main and any icon hint — yielding label "Sleet" and icon key
"sleet"; the later Drizzle and Clear branches then cannot fire. -/
theorem C8_sleet_range (main : String) (icon : Option String) (wid : Nat) (t : Int)
    (h1 : 602 < wid) (h2 : wid < 620) :
    classify ⟨some [⟨main, wid, icon⟩], t⟩ = some ⟨"sleet", "Sleet", t⟩ := by
  have hcast : castAndIcon main wid = ("Sleet", "sleet") := by
    simp only [castAndIcon]
    rw [applySleet_pos _ _ wid ⟨h1, h2⟩]
    decide
  simp [classify, hcast]

/-- C8 witness: the sleet override beats the Clouds branch ("Clouds", id
611) and the Drizzle label ("Drizzle", id 615). -/
theorem C8_sleet_range_witness :
    classify ⟨some [⟨"Clouds", 611, some "13d"⟩], 0⟩ = some ⟨"sleet", "Sleet", 0⟩ ∧
    classify ⟨some [⟨"Drizzle", 615, none⟩], 4⟩ = some ⟨"sleet", "Sleet", 4⟩ :=
  ⟨C8_sleet_range "Clouds" (some "13d") 611 0 (by decide) (by decide),
   C8_sleet_range "Drizzle" none 615 4 (by decide) (by decide)⟩

/-- C9: for a "Clear" item with no overriding condition id, the diurnal
character — the last character of the icon hint's first dot-segment —
selects the result: 'n' gives icon "clearnight" and a label ending in
" night"; any other character gives icon "clearday" and a label ending in
" day". -/
theorem C9_clear_day_night (wid : Nat) (ic : String) (t : Int) (d : Char)
    (h771 : wid ≠ 771) (h871 : wid ≠ 871)
    (hfog : ¬(699 < wid ∧ wid < 770)) (hsleet : ¬(602 < wid ∧ wid < 620))
    (hlast : (firstSegment ic).getLast? = some d) :
    (d = 'n' →
      classify ⟨some [⟨"Clear", wid, some ic⟩], t⟩ = some ⟨"clearnight", "Clear night", t⟩ ∧
      (" night").data.isSuffixOf ("Clear night").data = true) ∧
    (d ≠ 'n' →
      classify ⟨some [⟨"Clear", wid, some ic⟩], t⟩ = some ⟨"clearday", "Clear day", t⟩ ∧
      (" day").data.isSuffixOf ("Clear day").data = true) := by
  have hcast : castAndIcon "Clear" wid = ("Clear", "clear") := by
    rw [castAndIcon_plain "Clear" wid h771 h871 hfog hsleet (by decide)]
    decide
  have hnight : ("clear" ++ "night" : String) = "clearnight" := by decide
  have hday : ("clear" ++ "day" : String) = "clearday" := by decide
  have hlnight : ("Clear" ++ " night" : String) = "Clear night" := by decide
  have hlday : ("Clear" ++ " day" : String) = "Clear day" := by decide
  constructor
  · intro hd
    refine ⟨?_, by decide⟩
    simp [classify, hcast, hlast, hd, hnight, hlnight]
  · intro hd
    refine ⟨?_, by decide⟩
    simp [classify, hcast, hlast, hd, hday, hlday]

/-- C9 witness: icon hint "01n" yields the night result, "01d" the day
result. -/
theorem C9_clear_day_night_witness :
    (classify ⟨some [⟨"Clear", 800, some "01n"⟩], 3⟩ = some ⟨"clearnight", "Clear night", 3⟩ ∧
      (" night").data.isSuffixOf ("Clear night").data = true) ∧
    (classify ⟨some [⟨"Clear", 800, some "01d"⟩], 3⟩ = some ⟨"clearday", "Clear day", 3⟩ ∧
      (" day").data.isSuffixOf ("Clear day").data = true) :=
  ⟨(C9_clear_day_night 800 "01n" 3 'n' (by decide) (by decide) (by decide) (by decide)
      (by decide)).1 rfl,
   (C9_clear_day_night 800 "01d" 3 'd' (by decide) (by decide) (by decide) (by decide)
      (by decide)).2 (by decide)⟩

/-- C5 counterexample: an item whose condition_main is "Clear" but whose
weather entry has no icon field makes the classification code raise (the
Clear branch reads `item["weather"][0]["icon"]`), so `classify` is not
total as claimed. -/
theorem C5_cex_clear_without_icon_raises :
    classify ⟨some [⟨"Clear", 800, none⟩], 10⟩ = none := by decide

/-- C5 (amended): classification falls back to defaults (label "None",
id 0, icon "none") when the weather entry is absent, and the only way it
can fail is a present weather entry whose final label is "Clear" with a
missing icon hint or an empty first dot-segment. -/
theorem C5_totality_except_clear_icon (t : Int) (item : RawItem)
    (hfail : classify item = none) :
    classify ⟨none, t⟩ = some ⟨"none", "None", t⟩ ∧
    ∃ w ws, item.weather = some (w :: ws) ∧ (castAndIcon w.main w.id).1 = "Clear" ∧
      (w.icon = none ∨ ∃ ic, w.icon = some ic ∧ (firstSegment ic).getLast? = none) := by
  have h0 : castAndIcon "None" 0 = ("None", "none") := by decide
  refine ⟨by simp [classify, h0], ?_⟩
  obtain ⟨wo, tf⟩ := item
  match wo with
  | none => simp [classify, h0] at hfail
  | some [] => simp [classify, h0] at hfail
  | some (w :: ws) =>
    by_cases hc : (castAndIcon w.main w.id).1 = "Clear"
    · refine ⟨w, ws, rfl, hc, ?_⟩
      match hico : w.icon with
      | none => exact Or.inl rfl
      | some ic =>
        refine Or.inr ⟨ic, rfl, ?_⟩
        match hg : (firstSegment ic).getLast? with
        | none => rfl
        | some d =>
          exfalso
          by_cases hd : d = 'n' <;> simp [classify, hc, hico, hg, hd] at hfail
    · simp [classify, hc] at hfail

/-- C5 witness: the amended statement applied to the failing
Clear-without-icon item. -/
theorem C5_totality_witness :
    classify ⟨none, 5⟩ = some ⟨"none", "None", 5⟩ ∧
    ∃ w ws, (⟨some [⟨"Clear", 800, none⟩], 10⟩ : RawItem).weather = some (w :: ws) ∧
      (castAndIcon w.main w.id).1 = "Clear" ∧
      (w.icon = none ∨ ∃ ic, w.icon = some ic ∧ (firstSegment ic).getLast? = none) :=
  C5_totality_except_clear_icon 5 ⟨some [⟨"Clear", 800, none⟩], 10⟩ (by decide)

/-- C10: for display data whose icon key is not in the iconset table (for
example the "drizzle" key produced by the Drizzle branch), `display_weather`
does not fail: it draws the "none" glyph (character code 12), scrolls the
label text, and caches the data as the saved forecast. -/
theorem C10_unknown_icon_falls_back (dd : DisplayData) (sd : Option DisplayData)
    (h : iconset dd.icon = none) :
    display_weather (some dd) sd = some (DWResult.drawn (mkScroll dd) 12 (some dd)) := by
  have hn : iconset "none" = some 12 := by decide
  simp [display_weather, lookup_icon, h, hn]

/-- C10 witness: the fallback at the "drizzle" key (not in the table), with
the scroll text spelled out. -/
theorem C10_unknown_icon_witness :
    display_weather (some ⟨"drizzle", "lightrain", 10⟩) none =
      some (DWResult.drawn (mkScroll ⟨"drizzle", "lightrain", 10⟩) 12
        (some ⟨"drizzle", "lightrain", 10⟩)) :=
  C10_unknown_icon_falls_back ⟨"drizzle", "lightrain", 10⟩ none (by decide)

/-! ## Scheduler lemmas -/

theorem lookup_icon_isSome (k : String) : (lookup_icon k).isSome = true := by
  unfold lookup_icon
  cases h : iconset k with
  | some v => rfl
  | none => decide

theorem display_weather_ne_none (dd sd : Option DisplayData) :
    display_weather dd sd ≠ none := by
  unfold display_weather
  cases dd with
  | none =>
    cases sd with
    | none => simp
    | some s =>
      have h := lookup_icon_isSome s.icon
      cases hl : lookup_icon s.icon with
      | none => rw [hl] at h; simp at h
      | some v => simp [hl]
  | some d =>
    have h := lookup_icon_isSome d.icon
    cases hl : lookup_icon d.icon with
    | none => rw [hl] at h; simp at h
    | some v => simp [hl]

/-- The display half always succeeds, leaves the fetch bookkeeping alone,
and clears `do_show` whenever it was set. -/
theorem display_phase_spec (st : LoopState) (now : Int) :
    ∃ st', display_phase st now = some st' ∧
      st'.call_count = st.call_count ∧
      st'.last_check_day = st.last_check_day ∧
      st'.last_forecast = st.last_forecast ∧
      st'.weather_data = st.weather_data ∧
      (st.do_show = true → st'.do_show = false) := by
  unfold display_phase
  by_cases h : shouldDisplay st now = true
  · rw [if_pos h]
    cases hdw : display_weather st.weather_data st.saved_data with
    | none => exact absurd hdw (display_weather_ne_none _ _)
    | some r =>
      cases r with
      | nothing sv => exact ⟨_, rfl, rfl, rfl, rfl, rfl, fun _ => rfl⟩
      | drawn sc ich sv => exact ⟨_, rfl, rfl, rfl, rfl, rfl, fun _ => rfl⟩
  · rw [if_neg h]
    refine ⟨st, rfl, rfl, rfl, rfl, rfl, ?_⟩
    intro hds
    exfalso
    apply h
    simp [shouldDisplay, hds]

theorem fetch_phase_not_fired (st : LoopState) (now : Int) (fr : FetchResult) (day : Nat)
    (h : shouldFetch st now = false) : fetch_phase st now fr day = some st := by
  simp [fetch_phase, h]

theorem fetch_phase_err (st : LoopState) (now : Int) (day : Nat)
    (h : shouldFetch st now = true) : fetch_phase st now FetchResult.err day = some st := by
  simp [fetch_phase, h]

theorem fetch_phase_ok (st : LoopState) (now : Int) (item : RawItem) (wd : DisplayData)
    (day : Nat) (h : shouldFetch st now = true) (hcl : classify item = some wd) :
    fetch_phase st now (FetchResult.ok item) day =
      some { st with
        weather_data := some wd
        call_count := if day ≠ st.last_check_day then 0 else st.call_count + 1
        last_check_day := day
        last_forecast := now
        do_show := true } := by
  simp [fetch_phase, h, hcl]

theorem shouldFetch_capped (st : LoopState) (now : Int) (h : CALL_CAP ≤ st.call_count) :
    shouldFetch st now = false := by
  have hn : ¬ st.call_count < CALL_CAP := by omega
  simp [shouldFetch, hn]

theorem step_capped (st : LoopState) (now : Int) (fr : FetchResult) (day : Nat)
    (st' : LoopState) (h : CALL_CAP ≤ st.call_count)
    (hstep : step st now fr day = some st') :
    st'.call_count = st.call_count ∧ st'.last_check_day = st.last_check_day := by
  have hf : fetch_phase st now fr day = some st :=
    fetch_phase_not_fired st now fr day (shouldFetch_capped st now h)
  obtain ⟨st'', hdp, hc, hd, _, _, _⟩ := display_phase_spec st now
  unfold step at hstep
  rw [hf] at hstep
  have hstep2 : display_phase st now = some st' := hstep
  rw [hdp] at hstep2
  cases hstep2
  exact ⟨hc, hd⟩

theorem run_capped (evs : List (Int × FetchResult × Nat)) :
    ∀ st st', CALL_CAP ≤ st.call_count → run st evs = some st' →
      st'.call_count = st.call_count := by
  induction evs with
  | nil =>
    intro st st' _ hrun
    cases hrun
    rfl
  | cons e rest ih =>
    intro st st' h hrun
    obtain ⟨now, fr, day⟩ := e
    unfold run at hrun
    cases hstep : step st now fr day with
    | none => rw [hstep] at hrun; exact absurd hrun (by simp)
    | some st1 =>
      rw [hstep] at hrun
      obtain ⟨hc, _⟩ := step_capped st now fr day st1 h hstep
      have h1 : CALL_CAP ≤ st1.call_count := by omega
      have := ih st1 st' h1 hrun
      omega

/-- C1 counterexample: a capped state (count 990) ticking long after the
interval, with a successful-fetch opportunity on a new calendar day (day 2
vs last seen day 1): the step neither resets the counter nor re-enables
fetching — the fetch gate stays false at any later tick. -/
theorem C1_cex_day_rollover_no_resume :
    step ⟨990, false, 1, 0, 0, none, none⟩ 1000000000000
        (FetchResult.ok ⟨some [⟨"Rain", 500, some "10d"⟩], 14⟩) 2
      = some ⟨990, false, 1, 0, 1000000000000, none, none⟩ ∧
    shouldFetch ⟨990, false, 1, 0, 1000000000000, none, none⟩ 2000000000000 = false := by
  decide

/-- C1 (amended): once `daily_call_count` has reached the cap (990), fetch
stays suppressed on every subsequent tick and the counter is never reset —
the day-rollover reset sits inside the fetch branch, which the cap gate
makes unreachable — so a calendar-day change does not re-enable fetching. -/
theorem C1_cap_suppresses_forever (st : LoopState) (evs : List (Int × FetchResult × Nat))
    (st' : LoopState) (now2 : Int)
    (hcap : CALL_CAP ≤ st.call_count) (hrun : run st evs = some st') :
    st'.call_count = st.call_count ∧ shouldFetch st' now2 = false := by
  have hc := run_capped evs st st' hcap hrun
  exact ⟨hc, shouldFetch_capped st' now2 (by omega)⟩

/-- C1 witness: the amended statement after one capped tick on a new day. -/
theorem C1_cap_suppresses_forever_witness :
    (⟨990, false, 1, 0, 1000000000000, none, none⟩ : LoopState).call_count
        = (⟨990, false, 1, 0, 0, none, none⟩ : LoopState).call_count ∧
    shouldFetch ⟨990, false, 1, 0, 1000000000000, none, none⟩ 7 = false :=
  C1_cap_suppresses_forever ⟨990, false, 1, 0, 0, none, none⟩
    [(1000000000000, FetchResult.err, 2)] ⟨990, false, 1, 0, 1000000000000, none, none⟩ 7
    (by decide) (by decide)

/-- C2 counterexample: a forced fetch (do_show set, interval not elapsed)
is attempted at tick 1 and fails, yet the display branch of the same
iteration clears `do_show`, so the immediately following tick (tick 2)
does **not** fetch again. -/
theorem C2_cex_forced_retry_not_next_tick :
    shouldFetch ⟨0, true, 1, 0, 0, none, none⟩ 1 = true ∧
    step ⟨0, true, 1, 0, 0, none, none⟩ 1 FetchResult.err 1
      = some ⟨0, false, 1, 0, 1, none, none⟩ ∧
    shouldFetch ⟨0, false, 1, 0, 1, none, none⟩ 2 = false := by decide

/-- C2 (amended): a failed fetch leaves `last_forecast` and the call
counter untouched, but the shared `do_show` flag is cleared by the display
branch in the same iteration, so a later tick fetches again exactly when
the elapsed-interval condition holds. -/
theorem C2_failed_fetch_retry_only_by_interval (st : LoopState) (now : Int) (day : Nat)
    (now2 : Int) (hshow : st.do_show = true) (hcap : st.call_count < CALL_CAP) :
    ∃ st', step st now FetchResult.err day = some st' ∧
      st'.call_count = st.call_count ∧
      st'.last_forecast = st.last_forecast ∧
      st'.do_show = false ∧
      (shouldFetch st' now2 = true ↔ now2 - st.last_forecast > FORECAST_PERIOD_US) := by
  have hsf : shouldFetch st now = true := by simp [shouldFetch, hshow, hcap]
  have hf := fetch_phase_err st now day hsf
  obtain ⟨st', hdp, hc, hd, hlf, hwd, hds⟩ := display_phase_spec st now
  refine ⟨st', ?_, hc, hlf, hds hshow, ?_⟩
  · unfold step
    rw [hf]
    exact hdp
  · simp [shouldFetch, hds hshow, hlf, hc, hcap]

/-- C2 witness: the amended statement at a concrete forced failing tick. -/
theorem C2_failed_fetch_witness :
    ∃ st', step ⟨0, true, 1, 0, 0, none, none⟩ 1 FetchResult.err 1 = some st' ∧
      st'.call_count = (⟨0, true, 1, 0, 0, none, none⟩ : LoopState).call_count ∧
      st'.last_forecast = (⟨0, true, 1, 0, 0, none, none⟩ : LoopState).last_forecast ∧
      st'.do_show = false ∧
      (shouldFetch st' 2 = true ↔
        2 - (⟨0, true, 1, 0, 0, none, none⟩ : LoopState).last_forecast > FORECAST_PERIOD_US) :=
  C2_failed_fetch_retry_only_by_interval ⟨0, true, 1, 0, 0, none, none⟩ 1 1 2 rfl (by decide)

/-- C4 counterexample: a successful fetch observing a new day (2, last seen
1) from count 5 leaves the counter at 0, not 1: the code increments before
the reset, so the increment is discarded. -/
theorem C4_cex_first_fetch_of_day_is_zero :
    (step ⟨5, true, 1, 0, 0, none, none⟩ 1
        (FetchResult.ok ⟨some [⟨"Rain", 500, some "10d"⟩], 14⟩) 2).map LoopState.call_count
      = some 0 ∧
    (step ⟨5, true, 1, 0, 0, none, none⟩ 1
        (FetchResult.ok ⟨some [⟨"Rain", 500, some "10d"⟩], 14⟩) 2).map LoopState.call_count
      ≠ some 1 := by decide

/-- C4 (amended): when the observed calendar day differs from the last
seen day, a successful fetch increments the counter first and then resets
it to 0, so immediately after the first successful fetch of a new day
`daily_call_count` equals 0 (not 1), and the new day is recorded. -/
theorem C4_new_day_count_zero (st : LoopState) (now : Int) (item : RawItem)
    (wd : DisplayData) (day : Nat)
    (hfetch : shouldFetch st now = true) (hcl : classify item = some wd)
    (hday : day ≠ st.last_check_day) :
    ∃ st', step st now (FetchResult.ok item) day = some st' ∧
      st'.call_count = 0 ∧ st'.last_check_day = day := by
  have hf := fetch_phase_ok st now item wd day hfetch hcl
  obtain ⟨st', hdp, hc, hd, _, _, _⟩ := display_phase_spec
    { st with
      weather_data := some wd
      call_count := if day ≠ st.last_check_day then 0 else st.call_count + 1
      last_check_day := day
      last_forecast := now
      do_show := true } now
  refine ⟨st', ?_, ?_, ?_⟩
  · unfold step
    rw [hf]
    exact hdp
  · rw [hc]
    simp [hday]
  · rw [hd]

/-- C4 witness: the amended statement at a concrete new-day fetch. -/
theorem C4_new_day_count_zero_witness :
    ∃ st', step ⟨5, true, 1, 0, 0, none, none⟩ 1
        (FetchResult.ok ⟨some [⟨"Rain", 500, some "10d"⟩], 14⟩) 2 = some st' ∧
      st'.call_count = 0 ∧ st'.last_check_day = 2 :=
  C4_new_day_count_zero ⟨5, true, 1, 0, 0, none, none⟩ 1
    ⟨some [⟨"Rain", 500, some "10d"⟩], 14⟩ ⟨"rain", "Rain", 14⟩ 2
    (by decide) (by decide) (by decide)

/-- C6 counterexample: the `code.py` variant's fetch gate is
`ns_tick % FORECAST_PERIOD_NS == 0 or do_show` — it records no fetch time —
so after a successful fetch at tick 0 (which clears `do_show` via the
display branch), the tick at `FORECAST_PERIOD_NS + 1` does not fetch,
contradicting the claim that `T + forecast_period + 1` always yields
`should_fetch == true`. -/
theorem C6_cex_modulo_gate :
    cpStep ⟨0, true, 1, none, none⟩ 0
        (FetchResult.ok ⟨some [⟨"Rain", 500, some "10d"⟩], 14⟩) 1
      = some ⟨1, false, 1, some ⟨"rain", "Rain", 14⟩, some ⟨"rain", "Rain", 14⟩⟩ ∧
    shouldFetchCP ⟨1, false, 1, some ⟨"rain", "Rain", 14⟩, some ⟨"rain", "Rain", 14⟩⟩
        (FORECAST_PERIOD_NS + 1) = false := by decide

/-- C6 (amended): in the elapsed-time variant (`src/micropython/main.py`)
the claim holds: after a successful fetch at tick T (whose display half
clears the force flag), with the counter below the cap, the gate is false
at `T + FORECAST_PERIOD_US - 1` and true at `T + FORECAST_PERIOD_US + 1`.
The `code.py` modulo variant does not satisfy it. -/
theorem C6_interval_gate_after_fetch (st : LoopState) (T : Int) (item : RawItem)
    (wd : DisplayData) (day : Nat) (st' : LoopState)
    (hfetch : shouldFetch st T = true) (hcl : classify item = some wd)
    (hstep : step st T (FetchResult.ok item) day = some st')
    (hcap : st'.call_count < CALL_CAP) :
    st'.do_show = false ∧ st'.last_forecast = T ∧
    shouldFetch st' (T + FORECAST_PERIOD_US - 1) = false ∧
    shouldFetch st' (T + FORECAST_PERIOD_US + 1) = true := by
  have hf := fetch_phase_ok st T item wd day hfetch hcl
  obtain ⟨st'', hdp, hc, hd, hlf, hwd, hds⟩ := display_phase_spec
    { st with
      weather_data := some wd
      call_count := if day ≠ st.last_check_day then 0 else st.call_count + 1
      last_check_day := day
      last_forecast := T
      do_show := true } T
  unfold step at hstep
  rw [hf] at hstep
  have hstep2 : display_phase
      { st with
        weather_data := some wd
        call_count := if day ≠ st.last_check_day then 0 else st.call_count + 1
        last_check_day := day
        last_forecast := T
        do_show := true } T = some st' := hstep
  rw [hdp] at hstep2
  cases hstep2
  have hshow : st'.do_show = false := hds rfl
  have hlf2 : st'.last_forecast = T := hlf
  refine ⟨hshow, hlf2, ?_, ?_⟩
  · have h1 : ¬ (T + FORECAST_PERIOD_US - 1 - T > FORECAST_PERIOD_US) := by omega
    simp [shouldFetch, hshow, hlf2, h1]
  · have h1 : T + FORECAST_PERIOD_US + 1 - T > FORECAST_PERIOD_US := by omega
    simp [shouldFetch, hshow, hlf2, h1, hcap]

/-- C6 witness: the amended statement at a concrete first fetch at T = 0. -/
theorem C6_interval_gate_witness :
    (⟨1, false, 1, 0, 0, some ⟨"rain", "Rain", 14⟩, some ⟨"rain", "Rain", 14⟩⟩ : LoopState).do_show
        = false ∧
    (⟨1, false, 1, 0, 0, some ⟨"rain", "Rain", 14⟩, some ⟨"rain", "Rain", 14⟩⟩ : LoopState).last_forecast
        = 0 ∧
    shouldFetch ⟨1, false, 1, 0, 0, some ⟨"rain", "Rain", 14⟩, some ⟨"rain", "Rain", 14⟩⟩
        (0 + FORECAST_PERIOD_US - 1) = false ∧
    shouldFetch ⟨1, false, 1, 0, 0, some ⟨"rain", "Rain", 14⟩, some ⟨"rain", "Rain", 14⟩⟩
        (0 + FORECAST_PERIOD_US + 1) = true :=
  C6_interval_gate_after_fetch ⟨0, true, 1, 0, 0, none, none⟩ 0
    ⟨some [⟨"Rain", 500, some "10d"⟩], 14⟩ ⟨"rain", "Rain", 14⟩ 1
    ⟨1, false, 1, 0, 0, some ⟨"rain", "Rain", 14⟩, some ⟨"rain", "Rain", 14⟩⟩
    (by decide) (by decide) (by decide) (by decide)

end PicoWeather
